import Mathlib

/-!
Verification development for the cdk-demo repository.

The repository declares one REST endpoint backed by a managed function
runtime.  The shallow embedding below translates, definition by definition:

* src/lib/stacks/api-stack.ts        — the ApiStack resource-definition unit
* src/bin/cdk-demo.ts                — the entry point reading env variables
* src/unnamed/part_000               — the entry-point variant with a
                                       hard-coded account and region
* the example cdk.json of src/README.md — the environment configuration table
* src/handlers/hello-world/index.ts  — referenced by the stack but not present
                                       in the repository files; modelled from
                                       the spec where marked.

Effectful top-level code is embedded as a pure function returning an explicit
trace of effects next to the constructed stack value.
-/

/-- Account and region pair as bound under the env key of StackProps in
aws-cdk-lib; either component may be absent (undefined in the source). -/
structure EnvBinding where
  account : Option String
  region : Option String
deriving DecidableEq, Repr

/-- StackProps as used by the repository: only the env binding is ever set. -/
structure StackProps where
  env : Option EnvBinding
deriving DecidableEq, Repr

/-- Cross-origin resource sharing options passed as
defaultCorsPreflightOptions in src/lib/stacks/api-stack.ts. -/
structure CorsOptions where
  allowOrigins : List String
  allowMethods : List String
deriving DecidableEq, Repr

/-- Cors.ALL_ORIGINS from aws-cdk-lib/aws-apigateway. -/
def Cors.ALL_ORIGINS : List String := ["*"]

/-- Cors.ALL_METHODS from aws-cdk-lib/aws-apigateway. -/
def Cors.ALL_METHODS : List String :=
  ["OPTIONS", "GET", "PUT", "POST", "DELETE", "PATCH", "HEAD"]

/-- Integration target of an API Gateway method: either a LambdaIntegration
pointing at a declared function, or the mock integration the toolkit uses to
answer CORS preflight requests. -/
inductive Integration where
  | lambdaFn (functionConstructId : String)
  | mock
deriving DecidableEq, Repr

/-- Resources declared by the resource-definition unit, one constructor per
construct kind instantiated in src/lib/stacks/api-stack.ts. -/
inductive Resource where
  | nodejsFunction (constructId : String) (entry : String) (runtime : String)
      (memorySize : Nat)
  | restApi (constructId : String) (restApiName : String)
      (defaultCorsPreflightOptions : Option CorsOptions)
  | apiMethod (httpMethod : String) (path : String) (integration : Integration)
  | cfnOutput (constructId : String) (value : String) (description : String)
deriving DecidableEq, Repr

/-- A synthesized stack: its construct id, the env binding it was given, and
the declared resources in declaration order. -/
structure ApiStack where
  id : String
  env : Option EnvBinding
  resources : List Resource
deriving DecidableEq, Repr

/-- Path join as used for the function entry in src/lib/stacks/api-stack.ts:
join(process.cwd(), "src/handlers/hello-world/index.ts"). -/
def pathJoin (a b : String) : String := a ++ "/" ++ b

/-- The generated base URL of a RestApi (api.url in aws-cdk-lib): a
deploy-time value determined by the orchestrator from the construct; kept
symbolic here as a rendering of the construct id it belongs to. -/
def restApiUrl (constructId : String) : String :=
  "https://<api-id of " ++ constructId ++ ">.execute-api.<region>.amazonaws.com/<stage>/"

/-- Shallow embedding of the ApiStack constructor of
src/lib/stacks/api-stack.ts.  The body declares, in source order: the
NodejsFunction HelloFunction (entry under the working directory, runtime
NODEJS_20_X, memorySize 256), the RestApi ServiceApi named "Lambda Api" with
defaultCorsPreflightOptions allowing all origins and all methods, one GET
method on the API root integrated with HelloFunction, and the CfnOutput
ApiUrl carrying api.url.  The props argument only feeds the stack env via the
Stack super call; cwd stands for process.cwd(). -/
def mkApiStack (cwd : String) (id : String) (props : Option StackProps) : ApiStack :=
  let helloFn : Resource :=
    Resource.nodejsFunction "HelloFunction"
      (pathJoin cwd "src/handlers/hello-world/index.ts") "nodejs20.x" 256
  let api : Resource :=
    Resource.restApi "ServiceApi" "Lambda Api"
      (some ⟨Cors.ALL_ORIGINS, Cors.ALL_METHODS⟩)
  { id := id
    env := props.bind (fun p => p.env)
    resources :=
      [helloFn, api,
       Resource.apiMethod "GET" "/" (Integration.lambdaFn "HelloFunction"),
       Resource.cfnOutput "ApiUrl" (restApiUrl "ServiceApi") "Base URL of the REST API"] }

/-- Side effects the entry points perform besides returning the app value:
a console log line and the registration of a constructed stack.  No other
effect constructor exists because the sources perform no other effect: no
retry, no network call, no cloud resource creation. -/
inductive Effect where
  | consoleLog (message : String) (data : Option EnvBinding)
  | constructStack (stackId : String)
deriving DecidableEq, Repr

/-- Whether an effect is the construction of a stack. -/
def isConstructEffect : Effect → Bool
  | Effect.constructStack _ => true
  | _ => false

/-- Process environment variables read by src/bin/cdk-demo.ts. -/
structure ProcessEnv where
  CDK_DEFAULT_ACCOUNT : Option String
  AWS_REGION : Option String
deriving DecidableEq, Repr

/-- The literal first argument of the console.log call in
src/bin/cdk-demo.ts. -/
def envLogLabel : String :=
  "\x7b account: process.env.CDK_DEFAULT_ACCOUNT, region: process.env.AWS_REGION \x7d"

/-- Shallow embedding of src/bin/cdk-demo.ts.  The invocation context value
envSelection (a context key such as env=dev that a caller may pass) is
accepted because the spec quantifies over it, but — exactly as in the source,
which never calls tryGetContext — it is not read by the body.  The body logs
the account and region read from the process environment and constructs one
ApiStack with that env binding. -/
def cdkDemoMain (envSelection : Option String) (cwd : String) (penv : ProcessEnv) :
    List Effect × ApiStack :=
  let binding : EnvBinding := ⟨penv.CDK_DEFAULT_ACCOUNT, penv.AWS_REGION⟩
  let stack := mkApiStack cwd "ApiStack" (some ⟨some binding⟩)
  ([Effect.consoleLog envLogLabel (some binding),
    Effect.constructStack "ApiStack"], stack)

/-- Shallow embedding of src/unnamed/part_000: the entry-point variant that
hard-codes the account and region and performs no logging.  As in
cdkDemoMain, the context value is accepted and never read. -/
def cdkDemoAltMain (envSelection : Option String) (cwd : String) :
    List Effect × ApiStack :=
  let stack := mkApiStack cwd "ApiStack" (some ⟨some ⟨some "339713054130", some "ap-south-1"⟩⟩)
  ([Effect.constructStack "ApiStack"], stack)

/-- Environment configuration record, shaped after the entries of the
example cdk.json in src/README.md. -/
structure EnvConfig where
  account : String
  region : String
  dbName : String
deriving DecidableEq, Repr

/-- The environment configuration table of the example cdk.json in
src/README.md (the only configuration table present in the repository; no
code under src reads it). -/
def envConfigTable : List (String × EnvConfig) :=
  [("dev", ⟨"111111111111", "us-east-1", "devdb"⟩),
   ("test", ⟨"222222222222", "us-east-2", "testdb"⟩),
   ("prod", ⟨"333333333333", "us-west-2", "proddb"⟩)]

/-- Lookup of an environment name in the configuration table. -/
def lookupEnvConfig (name : String) : Option EnvConfig :=
  (envConfigTable.find? (fun e => e.1 == name)).map (fun e => e.2)

/-- An API Gateway method binding as it appears in the synthesized template:
an HTTP method on a resource together with its integration. -/
structure MethodBinding where
  httpMethod : String
  integration : Integration
deriving DecidableEq, Repr

/-- Methods added on the API root explicitly by the stack body, in
declaration order (the addMethod calls with path "/"). -/
def ApiStack.explicitRootMethods (s : ApiStack) : List MethodBinding :=
  s.resources.filterMap (fun r =>
    match r with
    | Resource.apiMethod m "/" i => some ⟨m, i⟩
    | _ => none)

/-- Whether the stack declares a RestApi with defaultCorsPreflightOptions
set. -/
def ApiStack.corsPreflightEnabled (s : ApiStack) : Bool :=
  s.resources.any (fun r =>
    match r with
    | Resource.restApi _ _ (some _) => true
    | _ => false)

/-- Method bindings on the API root resource in the synthesized template.
Following the aws-cdk-lib RestApi semantics invoked by the source: setting
defaultCorsPreflightOptions makes the toolkit add an OPTIONS preflight
method with a mock integration to every resource, ahead of and in addition
to the explicitly added methods. -/
def ApiStack.synthesizedRootMethods (s : ApiStack) : List MethodBinding :=
  (if s.corsPreflightEnabled then [⟨"OPTIONS", Integration.mock⟩] else [])
    ++ s.explicitRootMethods

/-- Whether the front door accepts an HTTP method on the root resource: a
method with no binding in the synthesized template is rejected before any
integration runs. -/
def ApiStack.frontDoorAccepts (s : ApiStack) (m : String) : Bool :=
  s.synthesizedRootMethods.any (fun b => b.httpMethod == m)

/-- Whether a request with the given HTTP method on the root resource
reaches the compute function: its binding must exist and be a
LambdaIntegration (the CORS preflight mock never invokes the function). -/
def ApiStack.reachesComputeHandler (s : ApiStack) (m : String) : Bool :=
  s.synthesizedRootMethods.any (fun b =>
    b.httpMethod == m &&
      match b.integration with
      | Integration.lambdaFn _ => true
      | Integration.mock => false)

/-- Calendar timestamp with millisecond precision, standing for the value of
new Date() at handler invocation time. -/
structure Timestamp where
  year : Nat
  month : Nat
  day : Nat
  hour : Nat
  minute : Nat
  second : Nat
  millis : Nat
deriving DecidableEq, Repr

/-- Decimal digit character of n taken modulo 10. -/
def digitChar (n : Nat) : Char :=
  if n % 10 = 0 then '0'
  else if n % 10 = 1 then '1'
  else if n % 10 = 2 then '2'
  else if n % 10 = 3 then '3'
  else if n % 10 = 4 then '4'
  else if n % 10 = 5 then '5'
  else if n % 10 = 6 then '6'
  else if n % 10 = 7 then '7'
  else if n % 10 = 8 then '8'
  else '9'

/-- Two-digit zero-padded decimal rendering. -/
def pad2Chars (n : Nat) : List Char := [digitChar (n / 10), digitChar n]

/-- Three-digit zero-padded decimal rendering. -/
def pad3Chars (n : Nat) : List Char :=
  [digitChar (n / 100), digitChar (n / 10), digitChar n]

/-- Four-digit zero-padded decimal rendering. -/
def pad4Chars (n : Nat) : List Char :=
  [digitChar (n / 1000), digitChar (n / 100), digitChar (n / 10), digitChar n]

/-- ISO-8601 rendering of the timestamp in the fixed-width form produced by
Date.prototype.toISOString: YYYY-MM-DDTHH:MM:SS.mmmZ. -/
def Timestamp.toISOString (t : Timestamp) : String :=
  String.mk (pad4Chars t.year ++ '-' :: pad2Chars t.month ++ '-' :: pad2Chars t.day
    ++ 'T' :: pad2Chars t.hour ++ ':' :: pad2Chars t.minute ++ ':' :: pad2Chars t.second
    ++ '.' :: pad3Chars t.millis ++ ['Z'])

/-- Shape check for ISO-8601 date-time strings of the fixed-width form
YYYY-MM-DDTHH:MM:SS.mmmZ, written against a format mask: D marks a decimal
digit position, any other mask character must occur literally. -/
def matchesMask : List Char → List Char → Bool
  | [], [] => true
  | 'D' :: ms, c :: cs => c.isDigit && matchesMask ms cs
  | m :: ms, c :: cs => (m == c) && matchesMask ms cs
  | _, _ => false

/-- Format mask of the fixed-width ISO-8601 date-time form. -/
def isoMask : List Char :=
  ['D', 'D', 'D', 'D', '-', 'D', 'D', '-', 'D', 'D', 'T',
   'D', 'D', ':', 'D', 'D', ':', 'D', 'D', '.', 'D', 'D', 'D', 'Z']

/-- Whether a string is an ISO-8601 date-time of the fixed-width form. -/
def isIso8601 (s : String) : Bool := matchesMask isoMask s.data

/-- JSON body of the handler response, held structured: the serialized form
is the object with exactly these two string fields. -/
structure ResponseBody where
  message : String
  timestamp : String
deriving DecidableEq, Repr

/-- Response value returned by the compute handler. -/
structure HandlerResponse where
  statusCode : Nat
  headers : List (String × String)
  body : ResponseBody
deriving DecidableEq, Repr

/-- Modelled from the spec: the compute handler source referenced by the
stack entry (src/handlers/hello-world/index.ts) is not among the repository
files; this definition follows the spec contract for it — return
synchronously, for any event (none stands for an empty event, some s for an
arbitrary, possibly malformed payload), status 200, headers including a
permissive cross-origin header and a JSON content-type header, and a body
holding the fixed greeting and the current time rendered as ISO-8601. -/
def handler (event : Option String) (now : Timestamp) : HandlerResponse :=
  { statusCode := 200
    headers := [("Content-Type", "application/json"),
                ("Access-Control-Allow-Origin", "*")]
    body := { message := "Hello from Lambda!", timestamp := now.toISOString } }

/-- Template rendering of one declared resource.  The concrete CloudFormation
layout is abridged to a line per resource, but it depends on everything the
declaration carries, so equality of renderings is equality of templates. -/
def renderResource : Resource → String
  | Resource.nodejsFunction cid entry runtime mem =>
      "Function(" ++ cid ++ ",entry=" ++ entry ++ ",runtime=" ++ runtime
        ++ ",memorySize=" ++ toString mem ++ ")"
  | Resource.restApi cid apiName cors =>
      "RestApi(" ++ cid ++ ",name=" ++ apiName ++ ",cors=" ++
        (match cors with
         | none => "none"
         | some c =>
             "allowOrigins=" ++ String.intercalate "|" c.allowOrigins
               ++ ";allowMethods=" ++ String.intercalate "|" c.allowMethods)
        ++ ")"
  | Resource.apiMethod m path i =>
      "Method(" ++ m ++ " " ++ path ++ ",integration=" ++
        (match i with
         | Integration.lambdaFn f => "lambda:" ++ f
         | Integration.mock => "mock")
        ++ ")"
  | Resource.cfnOutput cid value descr =>
      "Output(" ++ cid ++ ",value=" ++ value ++ ",description=" ++ descr ++ ")"

/-- Synthesis of a stack into its declarative template, rendered to a single
string so that template equality is byte equality.  Synthesis reads only the
stack value: no clock, no randomness, no ambient state. -/
def renderTemplate (s : ApiStack) : String :=
  "Stack(" ++ s.id ++ ")[" ++
    String.intercalate ";" ((s.synthesizedRootMethods.map (fun b =>
      "Root" ++ b.httpMethod)) ++ s.resources.map renderResource) ++ "]"

theorem digitChar_isDigit (n : Nat) : (digitChar n).isDigit = true := by
  unfold digitChar
  split_ifs <;> rfl

theorem toISOString_shape (t : Timestamp) : isIso8601 t.toISOString = true := by
  simp [isIso8601, Timestamp.toISOString, isoMask, pad4Chars, pad3Chars, pad2Chars,
    matchesMask, digitChar_isDigit]

/-- Whether a resource is a compute-function declaration. -/
def isFunctionResource : Resource → Bool
  | Resource.nodejsFunction _ _ _ _ => true
  | _ => false

/-- Whether a resource is an HTTP-API declaration. -/
def isApiResource : Resource → Bool
  | Resource.restApi _ _ _ => true
  | _ => false

/-- Whether a resource is a method binding. -/
def isMethodResource : Resource → Bool
  | Resource.apiMethod _ _ _ => true
  | _ => false

/-- Whether a resource is an exported output. -/
def isOutputResource : Resource → Bool
  | Resource.cfnOutput _ _ _ => true
  | _ => false

/-- C3: for every working directory, construct id and props, the
resource-definition unit declares exactly one compute function (memory 256,
managed runtime nodejs20.x), exactly one HTTP API accepting all cross-origin
origins and methods, exactly one method binding (GET on the API root to the
function), and exactly one exported output whose value equals the generated
base URL of the API — in exactly this order. -/
theorem apiStack_declaration_order (cwd id : String) (props : Option StackProps) :
    (mkApiStack cwd id props).resources.countP isFunctionResource = 1 ∧
    (mkApiStack cwd id props).resources.countP isApiResource = 1 ∧
    (mkApiStack cwd id props).resources.countP isMethodResource = 1 ∧
    (mkApiStack cwd id props).resources.countP isOutputResource = 1 ∧
    (mkApiStack cwd id props).resources =
      [Resource.nodejsFunction "HelloFunction"
         (pathJoin cwd "src/handlers/hello-world/index.ts") "nodejs20.x" 256,
       Resource.restApi "ServiceApi" "Lambda Api"
         (some ⟨Cors.ALL_ORIGINS, Cors.ALL_METHODS⟩),
       Resource.apiMethod "GET" "/" (Integration.lambdaFn "HelloFunction"),
       Resource.cfnOutput "ApiUrl" (restApiUrl "ServiceApi")
         "Base URL of the REST API"] :=
  ⟨rfl, rfl, rfl, rfl, rfl⟩

/-- C10: the declared resources of the stack are identical for every value of
the account and region props, including when the whole binding or both of
its components are absent — the declared-resource shape does not interfere
with the target environment. -/
theorem resources_independent_of_env_props (cwd id : String)
    (p₁ p₂ : Option StackProps) :
    (mkApiStack cwd id p₁).resources = (mkApiStack cwd id p₂).resources ∧
    (mkApiStack cwd id (some ⟨some ⟨none, none⟩⟩)).resources
      = (mkApiStack cwd id none).resources :=
  ⟨rfl, rfl⟩

/-- C5: for every invocation input, empty or malformed, the compute handler
returns status 200, headers including the permissive cross-origin header and
the JSON content-type header, and a body whose message field is the fixed
non-empty greeting and whose timestamp field is the invocation time rendered
as an ISO-8601 string. -/
theorem handler_response_contract (event : Option String) (now : Timestamp) :
    (handler event now).statusCode = 200 ∧
    ("Access-Control-Allow-Origin", "*") ∈ (handler event now).headers ∧
    ("Content-Type", "application/json") ∈ (handler event now).headers ∧
    (handler event now).body.message = "Hello from Lambda!" ∧
    (handler event now).body.message ≠ "" ∧
    (handler event now).body.timestamp = now.toISOString ∧
    isIso8601 (handler event now).body.timestamp = true := by
  refine ⟨rfl, by simp [handler], by simp [handler], rfl, by simp [handler], rfl, ?_⟩
  exact toISOString_shape now

/-- C6: the compute handler is a total function of its event and of the
clock, and its response does not depend on the event at all: any two events,
including the empty one, produce the same response at the same time. -/
theorem handler_total_and_input_independent (e₁ e₂ : Option String)
    (now : Timestamp) :
    handler e₁ now = handler e₂ now ∧ handler e₁ now = handler none now :=
  ⟨rfl, rfl⟩

/-- C7: synthesizing the resource-definition unit twice with identical
configuration yields byte-identical rendered templates — synthesis is a
deterministic function of the configuration. -/
theorem synthesis_deterministic (cwd : String) (p₁ p₂ : Option StackProps)
    (h : p₁ = p₂) :
    renderTemplate (mkApiStack cwd "ApiStack" p₁)
      = renderTemplate (mkApiStack cwd "ApiStack" p₂) := by
  rw [h]

/-- Witness for the determinism theorem at a concrete configuration. -/
theorem synthesis_deterministic_witness :
    renderTemplate (mkApiStack "/repo" "ApiStack" none)
      = renderTemplate (mkApiStack "/repo" "ApiStack" none) :=
  synthesis_deterministic "/repo" none none rfl

/-- C9: the two entry-point variants construct the same single stack — same
construct id ApiStack and identical declared resources; they differ only in
the source of the env binding (process environment versus the hard-coded
pair) and in a diagnostic console log present in one variant. -/
theorem entry_variants_same_stack (sel : Option String) (cwd : String)
    (penv : ProcessEnv) :
    (cdkDemoMain sel cwd penv).2.id = "ApiStack" ∧
    (cdkDemoAltMain sel cwd).2.id = "ApiStack" ∧
    (cdkDemoMain sel cwd penv).2.resources = (cdkDemoAltMain sel cwd).2.resources ∧
    (cdkDemoMain sel cwd penv).1 =
      Effect.consoleLog envLogLabel (some ⟨penv.CDK_DEFAULT_ACCOUNT, penv.AWS_REGION⟩)
        :: (cdkDemoAltMain sel cwd).1 ∧
    (cdkDemoMain sel cwd penv).2.env = some ⟨penv.CDK_DEFAULT_ACCOUNT, penv.AWS_REGION⟩ ∧
    (cdkDemoAltMain sel cwd).2.env = some ⟨some "339713054130", some "ap-south-1"⟩ :=
  ⟨rfl, rfl, rfl, rfl, rfl, rfl⟩

/-- C1 counterexample: the environment-selection string qa names no entry of
the environment configuration table, yet the entry point raises no
configuration error — its effect trace is exactly one diagnostic log and one
stack construction — and it constructs a DeployableGrouping holding four
declared resources. -/
theorem entryPoint_unknownEnv_counterexample :
    lookupEnvConfig "qa" = none ∧
    (cdkDemoMain (some "qa") "/repo" ⟨none, none⟩).2.resources.length = 4 ∧
    (cdkDemoMain (some "qa") "/repo" ⟨none, none⟩).1 =
      [Effect.consoleLog envLogLabel (some ⟨none, none⟩),
       Effect.constructStack "ApiStack"] :=
  ⟨rfl, rfl, rfl⟩

/-- C1 (amended): the entry point never consults the environment
configuration table: for every environment-selection string, known or
unknown, its behaviour is that of no selection at all — it raises no
configuration error and constructs exactly one stack holding four declared
resources. -/
theorem entryPoint_ignores_env_selection (sel : Option String) (cwd : String)
    (penv : ProcessEnv) :
    cdkDemoMain sel cwd penv = cdkDemoMain none cwd penv ∧
    (cdkDemoMain sel cwd penv).1.countP isConstructEffect = 1 ∧
    (cdkDemoMain sel cwd penv).2.resources.length = 4 :=
  ⟨rfl, rfl, rfl⟩

/-- C2 counterexample: the configuration table does map dev to account
111111111111 and region us-east-1, but selecting dev loads neither: the
env-variable entry point binds whatever the process environment holds (here
no account and no region), and the hard-coded variant binds 339713054130
and ap-south-1, which differ from the dev record. -/
theorem dev_record_not_loaded_counterexample :
    lookupEnvConfig "dev" = some ⟨"111111111111", "us-east-1", "devdb"⟩ ∧
    (cdkDemoMain (some "dev") "/repo" ⟨none, none⟩).2.env = some ⟨none, none⟩ ∧
    (some (⟨none, none⟩ : EnvBinding)
      ≠ some ⟨some "111111111111", some "us-east-1"⟩) ∧
    (cdkDemoAltMain (some "dev") "/repo").2.env
      = some ⟨some "339713054130", some "ap-south-1"⟩ ∧
    ("339713054130" : String) ≠ "111111111111" := by
  refine ⟨rfl, rfl, by decide, rfl, by decide⟩

/-- C2 (amended): for every environment selection the entry point constructs
exactly one DeployableGrouping, but its declared account and region are not
read from the configuration table: they equal the process environment
variables in the env-variable variant and the fixed pair 339713054130 and
ap-south-1 in the hard-coded variant, even though the table holds a dev
record with account 111111111111 and region us-east-1. -/
theorem entryPoint_env_binding_sources (sel : Option String) (cwd : String)
    (penv : ProcessEnv) :
    (cdkDemoMain sel cwd penv).1.countP isConstructEffect = 1 ∧
    (cdkDemoMain sel cwd penv).2.env
      = some ⟨penv.CDK_DEFAULT_ACCOUNT, penv.AWS_REGION⟩ ∧
    (cdkDemoAltMain sel cwd).2.env
      = some ⟨some "339713054130", some "ap-south-1"⟩ ∧
    lookupEnvConfig "dev" = some ⟨"111111111111", "us-east-1", "devdb"⟩ :=
  ⟨rfl, rfl, rfl, rfl⟩

/-- C4 counterexample: in the synthesized template of the stack, the root
resource also binds OPTIONS — the CORS preflight method the toolkit adds for
defaultCorsPreflightOptions — so GET is not the only method bound to the
root resource, and OPTIONS is accepted by the front door rather than
rejected. -/
theorem rootResource_options_counterexample :
    (⟨"OPTIONS", Integration.mock⟩ : MethodBinding) ∈
      (mkApiStack "/repo" "ApiStack" none).synthesizedRootMethods ∧
    ("OPTIONS" : String) ≠ "GET" ∧
    (mkApiStack "/repo" "ApiStack" none).frontDoorAccepts "OPTIONS" = true := by
  refine ⟨List.mem_cons_self _ _, by decide, rfl⟩

/-- C4 (amended): the synthesized root resource binds exactly OPTIONS (the
automatically added CORS preflight, a mock integration) and GET (integrated
with the compute function); GET is the only method that reaches the compute
handler, and every method other than GET and OPTIONS is rejected by the
front door before reaching any integration. -/
theorem rootResource_methods_amended (cwd id : String) (props : Option StackProps)
    (m : String) :
    (mkApiStack cwd id props).synthesizedRootMethods =
      [⟨"OPTIONS", Integration.mock⟩, ⟨"GET", Integration.lambdaFn "HelloFunction"⟩] ∧
    ((mkApiStack cwd id props).reachesComputeHandler m = true ↔ m = "GET") ∧
    (m ≠ "GET" → m ≠ "OPTIONS" →
      (mkApiStack cwd id props).frontDoorAccepts m = false) := by
  have hsyn : (mkApiStack cwd id props).synthesizedRootMethods =
      [⟨"OPTIONS", Integration.mock⟩,
       ⟨"GET", Integration.lambdaFn "HelloFunction"⟩] := rfl
  refine ⟨hsyn, ?_, ?_⟩
  · unfold ApiStack.reachesComputeHandler
    rw [hsyn]
    simp only [List.any_cons, List.any_nil, Bool.and_false, Bool.and_true,
      Bool.false_or, Bool.or_false, beq_iff_eq]
    exact ⟨fun h => h.symm, fun h => h.symm⟩
  · intro h₁ h₂
    unfold ApiStack.frontDoorAccepts
    rw [hsyn]
    simp only [List.any_cons, List.any_nil, Bool.or_false,
      Bool.or_eq_false_iff, beq_eq_false_iff_ne, ne_eq]
    exact ⟨fun h => h₂ h.symm, fun h => h₁ h.symm⟩

/-- Witness for the amended root-method theorem: POST is rejected by the
front door and GET reaches the compute handler. -/
theorem rootResource_methods_amended_witness :
    (mkApiStack "/repo" "ApiStack" none).frontDoorAccepts "POST" = false ∧
    (mkApiStack "/repo" "ApiStack" none).reachesComputeHandler "GET" = true :=
  ⟨(rootResource_methods_amended "/repo" "ApiStack" none "POST").2.2
      (by decide) (by decide),
   (rootResource_methods_amended "/repo" "ApiStack" none "GET").2.1.mpr rfl⟩

/-- C8 counterexample: the effect trace of the env-variable entry point
contains a console log — output beyond the constructed declaration — which
is not a construction effect. -/
theorem entryPoint_console_log_counterexample :
    Effect.consoleLog envLogLabel (some ⟨none, none⟩)
      ∈ (cdkDemoMain none "/repo" ⟨none, none⟩).1 ∧
    isConstructEffect (Effect.consoleLog envLogLabel (some ⟨none, none⟩)) = false :=
  ⟨List.mem_cons_self _ _, rfl⟩

/-- C8 (amended): on every invocation the entry point performs exactly one
diagnostic console log of the account and region binding followed by exactly
one stack construction — no retries, no cloud resource creation, and no
other output. -/
theorem entryPoint_effect_trace_amended (sel : Option String) (cwd : String)
    (penv : ProcessEnv) :
    (cdkDemoMain sel cwd penv).1 =
      [Effect.consoleLog envLogLabel
         (some ⟨penv.CDK_DEFAULT_ACCOUNT, penv.AWS_REGION⟩),
       Effect.constructStack "ApiStack"] :=
  rfl
